import Mathlib

/-!
Verification of the spiking-neural-network simulator in src/antlr.py
(class ListSNNMulti) against its natural-language specification.

The embedding below translates the relevant parts of the Python source
into Lean definitions.  Tensor entries are modelled as rationals;
Python-level runtime failures (TypeError, ValueError, RuntimeError,
UnboundLocalError, NotImplementedError) are modelled with an explicit
error type carried in `Except`.  Line numbers in comments refer to
src/antlr.py.
-/

/-- Python-level runtime failures that the embedded code can raise. -/
inductive PyErr where
  | typeError
  | valueError
  | runtimeError
  | unboundLocal
  | notImplemented
  deriving DecidableEq, Repr

/-! ### Python value semantics needed for `apply_alpha_kernel` (lines 819-849)

Line 832 reads `if len(input.shape != 3):`.  In Python, `input.shape` is a
`torch.Size` and comparing it with the integer `3` yields the boolean
`True`; calling `len` on a boolean raises `TypeError`.  We model just
enough of Python's dynamic typing to express this faithfully. -/

/-- A Python value: a boolean, a `torch.Size` (list of dims), or an int. -/
inductive PyVal where
  | pyBool (b : Bool)
  | pySize (dims : List ℕ)
  | pyInt (n : ℤ)
  deriving DecidableEq

/-- Python equality between the modelled values: values of different
runtime types (for example `torch.Size` and `int`) compare unequal. -/
def pyValEq : PyVal → PyVal → Bool
  | PyVal.pyBool a, PyVal.pyBool b => a == b
  | PyVal.pySize a, PyVal.pySize b => a == b
  | PyVal.pyInt a, PyVal.pyInt b => a == b
  | _, _ => false

/-- Python `a != b` on the modelled values. -/
def pyNe (a b : PyVal) : PyVal := PyVal.pyBool (! pyValEq a b)

/-- Python `len`: defined on a `torch.Size`, a `TypeError` on a boolean
or an integer. -/
def pyLen : PyVal → Except PyErr ℕ
  | PyVal.pySize dims => Except.ok dims.length
  | _ => Except.error PyErr.typeError

/-- Python `torch.pow(x)` with the mandatory exponent argument missing
(line 643 calls `torch.pow(self.diff[:, -1, :])`): a `TypeError`. -/
def torchPowMissingExponent (_x : ℚ) : Except PyErr ℚ :=
  Except.error PyErr.typeError

/-! ### Rank-3 tensors and the alpha-kernel machinery (lines 115-135, 819-849) -/

/-- A `batch x time x feature` tensor of rationals. -/
structure Tensor3 where
  batch : ℕ
  time : ℕ
  feat : ℕ
  entry : ℕ → ℕ → ℕ → ℚ

/-- The `input.shape` of a rank-3 tensor, as a `torch.Size`. -/
def tensor3Shape (x : Tensor3) : List ℕ := [x.batch, x.time, x.feat]

/-- Elementwise difference `output - target` (line 635). -/
def tensor3Sub (a b : Tensor3) : Tensor3 :=
  ⟨a.batch, a.time, a.feat, fun i t n => a.entry i t n - b.entry i t n⟩

/-- The alpha kernel (lines 124-128): `alpha_exp ^ t` for
`t = 0 .. min(T,1000)-1`, keeping only entries greater than `1e-6`. -/
def alphaKernel (alphaExp : ℚ) (timeLength : ℕ) : List ℚ :=
  (((List.range (min timeLength 1000)).map fun t => alphaExp ^ t).filter
    fun v => 1 / 1000000 < v)

/-- One output entry of `F.conv1d` with symmetric zero padding of
`K - 1` on a length-`T` signal (`K` = kernel length); torch's `conv1d`
is a cross-correlation, so no implicit kernel flip happens here. -/
def conv1dPad (ker : List ℚ) (timeLen : ℕ) (x : ℕ → ℚ) (tau : ℕ) : ℚ :=
  ∑ j ∈ Finset.range ker.length,
    ker.getD j 0 *
      (if ker.length - 1 ≤ tau + j ∧ tau + j - (ker.length - 1) < timeLen then
        x (tau + j - (ker.length - 1))
      else 0)

/-- Embedding of `apply_alpha_kernel` (lines 819-849) with the default
arguments used by `calc_loss` (`padding=True`, `prime=False`).  The
guard on line 832 is `if len(input.shape != 3):` — the length of a
boolean — so every call raises `TypeError` before any convolution. -/
def applyAlphaKernel (ker : List ℚ) (flip : Bool) (input : Tensor3) :
    Except PyErr Tensor3 := do
  let r ← pyLen (pyNe (PyVal.pySize (tensor3Shape input)) (PyVal.pyInt 3))
  if r ≠ 0 then Except.error PyErr.valueError
  else
    let k := if flip then ker.reverse else ker
    Except.ok ⟨input.batch, input.time + k.length - 1, input.feat,
      fun b tau n => conv1dPad k input.time (fun t => input.entry b t n) tau⟩

/-- Embedding of `calc_loss` for the spike-train rule (lines 621-663):
convolve `output - target` with the flipped alpha kernel, truncate to
`T + alpha_extend` steps, and return the summed squared difference
normalized by `T * batch_size`. -/
def calcLossTrain (alphaExp : ℚ) (timeLength alphaExtend : ℕ)
    (output target : Tensor3) : Except PyErr ℚ := do
  let diff ← applyAlphaKernel (alphaKernel alphaExp timeLength) true
    (tensor3Sub output target)
  let horizon := min (timeLength + alphaExtend) diff.time
  Except.ok
    ((∑ b ∈ Finset.range output.batch, ∑ t ∈ Finset.range horizon,
        ∑ n ∈ Finset.range output.feat, (diff.entry b t n) ^ 2) /
      ((timeLength : ℚ) * (output.batch : ℚ)))

/-- Embedding of `calc_loss` for the spike-count rule (lines 621-667):
the count parameterization forces `alpha_exp = 1`, `alpha_extend = 0`
(lines 120-122), and line 643 computes `torch.pow(self.diff[:, -1, :])`
without an exponent (a second `TypeError`, after the one inside
`apply_alpha_kernel`). -/
def calcLossCount (timeLength : ℕ) (output target : Tensor3) :
    Except PyErr ℚ := do
  let diff ← applyAlphaKernel (alphaKernel 1 timeLength) true
    (tensor3Sub output target)
  let sq ← torchPowMissingExponent (diff.entry 0 (diff.time - 1) 0)
  Except.ok (sq / ((timeLength : ℚ) * (output.batch : ℚ)))

/-! ### Kernel initializer (lines 137-168) -/

/-- The epsilon kernel entry at timestep `t` (lines 141-151):
`epsilon[t] = sum_{k=0}^{t} alpha_i^k * alpha_v^(t-k)`, the product of
the synaptic-current trace `alpha_i^k` with the voltage-integration
trace `alpha_v^(t-k)`, summed elementwise. -/
def epsilonAt (alphaI alphaV : ℚ) (t : ℕ) : ℚ :=
  ∑ k ∈ Finset.range (t + 1), alphaI ^ k * alphaV ^ (t - k)

/-- The full epsilon kernel over the configured time horizon
(line 141 allocates `torch.zeros(self.time_length)`). -/
def epsilonList (alphaI alphaV : ℚ) (timeLength : ℕ) : List ℚ :=
  (List.range timeLength).map (epsilonAt alphaI alphaV)

/-- `tensor.max()` over a list of entries (defined for nonempty lists;
the `0` default for the empty list is never used under `1 ≤ T`). -/
def tensorMax : List ℚ → ℚ
  | [] => 0
  | q :: qs => qs.foldl max q

/-- The three normalization constants. -/
structure BetaCfg where
  betaI : ℚ
  betaV : ℚ
  betaBias : ℚ
  deriving DecidableEq

/-- Auto-derived normalization constants (lines 154-157):
`beta_i = 1`, `beta_v = 1/epsilon.max()`, `beta_bias = 1/epsilon.max()`,
computed from the epsilon kernel before it is rescaled on line 161. -/
def betasAuto (alphaI alphaV : ℚ) (timeLength : ℕ) : BetaCfg :=
  { betaI := 1
    betaV := 1 / tensorMax (epsilonList alphaI alphaV timeLength)
    betaBias := 1 / tensorMax (epsilonList alphaI alphaV timeLength) }

/-! ### Per-neuron forward recurrence (lines 475-575, multi-model path)

The multi-model branch of `forward` computes, elementwise per neuron:
`I[t] = beta_i * (W·X_in[t])`, plus `alpha_i * I[t-1] * (1 - S[t-1])`
for `t > 0` (lines 496-522); `V[t] = beta_v * I[t] + beta_bias * bias`,
plus `alpha_v * V[t-1] * (1 - S[t-1])` for `t > 0` (lines 525-562); and
`S[t] = 1` iff `V[t] >= 1` (line 575 together with `act`, lines
1671-1673).  `x t` stands for the neuron's weighted input `W·X_in[t]`. -/

/-- Per-neuron configuration: decay constants, normalization constants
and the neuron's bias entry. -/
structure NeuronCfg where
  alphaI : ℚ
  alphaV : ℚ
  betaI : ℚ
  betaV : ℚ
  betaBias : ℚ
  bias : ℚ
  deriving DecidableEq

/-- One neuron's `(I, V, S)` at timestep `t` given its weighted input
drive `x`. -/
def snnStep (p : NeuronCfg) (x : ℕ → ℚ) : ℕ → ℚ × ℚ × ℚ
  | 0 =>
      let i := p.betaI * x 0
      let v := p.betaV * i + p.betaBias * p.bias
      (i, v, if 1 ≤ v then 1 else 0)
  | t + 1 =>
      let prev := snnStep p x t
      let i := p.betaI * x (t + 1) + p.alphaI * prev.1 * (1 - prev.2.2)
      let v := p.betaV * i + p.betaBias * p.bias +
        p.alphaV * prev.2.1 * (1 - prev.2.2)
      (i, v, if 1 ≤ v then 1 else 0)

/-- Synaptic current `I[t]`. -/
def stateI (p : NeuronCfg) (x : ℕ → ℚ) (t : ℕ) : ℚ := (snnStep p x t).1

/-- Membrane potential `V[t]`. -/
def stateV (p : NeuronCfg) (x : ℕ → ℚ) (t : ℕ) : ℚ := (snnStep p x t).2.1

/-- Spike `S[t]` (0 or 1). -/
def stateS (p : NeuronCfg) (x : ℕ → ℚ) (t : ℕ) : ℚ := (snnStep p x t).2.2

/-- The raw finite-difference helper computed on lines 564-566:
`state_v_prime = (-1) * V[t-1]`, then `*= (1 - S[t-1])` (at that point
in the loop `self.state_s[l][-1]` is the spike of timestep `t-1`;
`S[t]` is only appended on line 575, after this computation), then
`+= V[t]`. -/
def vPrimeStepRaw (vPrev sPrev vCur : ℚ) : ℚ :=
  (-1) * vPrev * (1 - sPrev) + vCur

/-- The stored finite-difference helper (lines 557-574): the raw value
for `t > 0`, `V[0]` for `t = 0`, clamped to a minimum of `0.01`
(lines 572-574). -/
def statevPrime (p : NeuronCfg) (x : ℕ → ℚ) : ℕ → ℚ
  | 0 => max (stateV p x 0) (1 / 100)
  | t + 1 =>
      max (vPrimeStepRaw (stateV p x t) (stateS p x t) (stateV p x (t + 1)))
        (1 / 100)

/-- The finite-difference helper as the specification words it:
`V'[l,t] = V[l,t] - V[l,t-1] * (1 - S[l,t])`, with the CURRENT
timestep's spike, clamped to a minimum of 0.01.  Stated only to be
compared with `statevPrime`, which is translated from the code. -/
def statevPrimeClaim (p : NeuronCfg) (x : ℕ → ℚ) : ℕ → ℚ
  | 0 => max (stateV p x 0) (1 / 100)
  | t + 1 =>
      max (stateV p x (t + 1) - stateV p x t * (1 - stateS p x (t + 1)))
        (1 / 100)

/-- Concrete neuron configuration used in counterexamples: no decay,
unit normalization, zero bias. -/
def exP : NeuronCfg := ⟨0, 0, 1, 1, 0, 0⟩

/-- Concrete input drive used in counterexamples: `1/2` at `t = 0`
(below threshold), `2` afterwards (above threshold). -/
def exX : ℕ → ℚ
  | 0 => 1 / 2
  | _ + 1 => 2

/-! ### The single-model voltage update (lines 541-555)

The single-model branch of the voltage update is:
```
state_v = self.state_v_bs[l]            # aliases the stored bias Parameter
state_v *= self.beta_bias               # in place: the stored bias is scaled
state_v += self.state_i[l][-1] * self.beta_v
```
The first in-place operation permanently mutates the bias parameter;
the second is an in-place add of a `[batch, features]` tensor into the
`[features]`-shaped bias, which PyTorch rejects (an in-place op cannot
broadcast `self` to a larger shape), raising a `RuntimeError`. -/

/-- Right-aligned torch broadcast of two shapes, given reversed
(innermost dimension first); `none` when the shapes are incompatible. -/
def broadcastDimsRev : List ℕ → List ℕ → Option (List ℕ)
  | [], bs => some bs
  | a :: as, [] => some (a :: as)
  | a :: as, b :: bs =>
      match broadcastDimsRev as bs with
      | none => none
      | some rest =>
          if a = b then some (a :: rest)
          else if a = 1 then some (b :: rest)
          else if b = 1 then some (a :: rest)
          else none

/-- Torch broadcast of two shapes (outermost dimension first). -/
def broadcastShape (a b : List ℕ) : Option (List ℕ) :=
  (broadcastDimsRev a.reverse b.reverse).map List.reverse

/-- Whether `self += other` is accepted by torch: the broadcast of the
two shapes must equal `self`'s own shape (an in-place op cannot enlarge
`self`). -/
def inplaceAddOk (selfShape otherShape : List ℕ) : Bool :=
  broadcastShape selfShape otherShape == some selfShape

/-- A `batch x features` matrix of rationals (the rank-2 synaptic
current of an fc layer in single-model mode). -/
structure Mat2 where
  batch : ℕ
  feat : ℕ
  entry : ℕ → ℕ → ℚ

/-- Embedding of the single-model, rank-2 voltage update
(lines 541-555).  Returns the bias parameter as stored after the update
(first component — `state_v *= beta_bias` scales it in place) together
with the outcome of the attempted `state_v += state_i * beta_v`. -/
def singleModelVUpdate (betaBias betaV : ℚ) (bias : List ℚ)
    (stateIcur : Mat2) : List ℚ × Except PyErr Mat2 :=
  let biasScaled := bias.map fun xq => xq * betaBias
  if inplaceAddOk [biasScaled.length] [stateIcur.batch, stateIcur.feat] then
    (biasScaled,
      Except.ok ⟨stateIcur.batch, stateIcur.feat,
        fun b n => biasScaled.getD n 0 + stateIcur.entry b n * betaV⟩)
  else (biasScaled, Except.error PyErr.runtimeError)

/-! ### Latency-mode early exit (lines 594-600) -/

/-- Whether output neuron `n` of batch element `b` has spiked at some
timestep `u ≤ t` (the cumulative spike count `output_s_cum` is positive). -/
def spikedByT (s : ℕ → ℕ → ℕ → Bool) (t b n : ℕ) : Bool :=
  (List.range (t + 1)).any fun u => s u b n

/-- The early-exit condition `(self.output_s_cum > 0).all()` after the
layer updates of timestep `t`: every (batch element, output neuron)
pair has spiked at least once so far. -/
def allSpikedBy (nb nn : ℕ) (s : ℕ → ℕ → ℕ → Bool) (t : ℕ) : Bool :=
  (List.range nb).all fun b => (List.range nn).all fun n => spikedByT s t b n

/-- First index `t` in `t0, t0+1, ..., t0+n-1` satisfying `p`, if any
(the `break` of the simulation loop). -/
def firstHit (p : ℕ → Bool) : ℕ → ℕ → Option ℕ
  | _, 0 => none
  | t, n + 1 => if p t then some t else firstHit p (t + 1) n

/-- The number of executed timesteps `term_length = t + 1` (line 600):
the loop over `t in range(T)` breaks at the first timestep where every
output neuron has cumulatively spiked, otherwise runs to `T`. -/
def termLength (nb nn timeLen : ℕ) (s : ℕ → ℕ → ℕ → Bool) : ℕ :=
  match firstHit (allSpikedBy nb nn s) 0 timeLen with
  | some t => t + 1
  | none => timeLen

/-! ### Gradient clipping (lines 49-56 and 1101-1135) -/

/-- The `grad_clip` configuration value: a scalar or a list. -/
inductive GradClip where
  | scalar (q : ℚ)
  | list (qs : List ℚ)
  deriving DecidableEq

/-- `clamp_grad` (lines 49-56): clamp one gradient entry to
`[-|grad_clip|, +|grad_clip|]`. -/
def clampVal (c xq : ℚ) : ℚ := min (max xq (-|c|)) |c|

/-- Clamp every entry of one parameter's gradient. -/
def clampList (c : ℚ) (g : List ℚ) : List ℚ := g.map (clampVal c)

/-- Lines 1118-1120: while `grad_clip` is still a list, model `m`
selects `grad_clip[m // (num_models // len(grad_clip))]`.  A zero inner
quotient is Python's `ZeroDivisionError`, an out-of-range index an
`IndexError`; both are modelled as `runtimeError`. -/
def gcSelect (numModels m : ℕ) : GradClip → Except PyErr ℚ
  | GradClip.scalar q => Except.ok q
  | GradClip.list qs =>
      if numModels / qs.length = 0 then Except.error PyErr.runtimeError
      else
        match qs.get? (m / (numModels / qs.length)) with
        | some q => Except.ok q
        | none => Except.error PyErr.runtimeError

/-- The kind of one torch module in the layer list. -/
inductive ModuleKind where
  | conv2d
  | linear
  | avgPool
  | maxPool
  | flatten
  deriving DecidableEq

/-- What the loop variable `layer` holds at line 1103: the torch module
itself in single-model mode, or — in multi-model mode — the plain
Python list of per-model module replicas (lines 293-300 build
`self.layers` as a list of such lists). -/
inductive LayerObj where
  | module (k : ModuleKind)
  | moduleList (ks : List ModuleKind)
  deriving DecidableEq

/-- `is_conv2d_or_linear` (lines 22-28): an `isinstance` test against
`nn.Conv2d` / `nn.Linear`.  A Python list is neither, whatever modules
it holds. -/
def isConv2dOrLinear : LayerObj → Bool
  | LayerObj.module ModuleKind.conv2d => true
  | LayerObj.module ModuleKind.linear => true
  | _ => false

/-- The inner loop `for m in range(self.num_models)` (lines 1115-1125)
over one layer's per-model gradient entry lists, threading the mutable
`grad_clip` variable: once a list entry is selected at model 0 the
variable is REBOUND to that scalar (line 1120), so later models never
consult the list again.  The clamp on lines 1123-1125 is guarded by
`is_conv2d_or_linear(layer)` applied to `layerObj` — the object the
loop variable `layer` holds, which in multi-model mode is the
per-model list, never a module. -/
def clipModelsAux (numModels : ℕ) (layerObj : LayerObj) :
    ℕ → GradClip → List (List ℚ) → Except PyErr (GradClip × List (List ℚ))
  | _, gc, [] => Except.ok (gc, [])
  | m, GradClip.scalar q, g :: rest =>
      match clipModelsAux numModels layerObj (m + 1) (GradClip.scalar q) rest with
      | Except.error e => Except.error e
      | Except.ok r =>
          Except.ok (r.1,
            (if isConv2dOrLinear layerObj then clampList q g else g) :: r.2)
  | m, GradClip.list qs, g :: rest =>
      match gcSelect numModels m (GradClip.list qs) with
      | Except.error e => Except.error e
      | Except.ok q =>
          match clipModelsAux numModels layerObj (m + 1) (GradClip.scalar q) rest with
          | Except.error e => Except.error e
          | Except.ok r =>
              Except.ok (r.1,
                (if isConv2dOrLinear layerObj then clampList q g else g) :: r.2)

/-- Lines 1107-1113: per layer, while `grad_clip` is still a list, check
that its length divides the model count (`ValueError` otherwise;
`num_models % 0` is Python's `ZeroDivisionError`). -/
def gcCheck (numModels : ℕ) : GradClip → Except PyErr Unit
  | GradClip.scalar _ => Except.ok ()
  | GradClip.list qs =>
      if qs.length = 0 then Except.error PyErr.runtimeError
      else if numModels % qs.length = 0 then Except.ok ()
      else Except.error PyErr.valueError

/-- The outer loop `for l, layer in enumerate(self.layers)`
(lines 1103-1125) in multi-model mode, threading the `grad_clip`
variable across layers.  Each layer carries the object bound to the
loop variable `layer` and its per-model gradient entry lists; the
result is the per-layer state of those gradients after the loop. -/
def clipLayersAux (numModels : ℕ) :
    GradClip → List (LayerObj × List (List ℚ)) →
      Except PyErr (List (List (List ℚ)))
  | _, [] => Except.ok []
  | gc, layer :: rest =>
      match gcCheck numModels gc with
      | Except.error e => Except.error e
      | Except.ok _ =>
          match clipModelsAux numModels layer.1 0 gc layer.2 with
          | Except.error e => Except.error e
          | Except.ok r =>
              match clipLayersAux numModels r.1 rest with
              | Except.error e => Except.error e
              | Except.ok rs => Except.ok (r.2 :: rs)

/-- The gradient-clipping phase of `backward_custom` in multi-model
mode (lines 1101-1125): in that mode every element of `self.layers` is
the plain Python list of per-model modules, so every `LayerObj` handed
to the loop is a `moduleList`. -/
def clipBackwardMulti (numModels : ℕ) (gc : GradClip)
    (layers : List (List ModuleKind × List (List ℚ))) :
    Except PyErr (List (List (List ℚ))) :=
  clipLayersAux numModels gc
    (layers.map fun lay => (LayerObj.moduleList lay.1, lay.2))

/-- The gradient-clipping phase of `backward_custom` in SINGLE-model
mode (lines 1126-1135): per layer, a list-valued `grad_clip` is
rebound to its first entry (line 1130; an IndexError on an empty
list), and the conv/fc guard receives the torch module itself, so
conv/fc gradients really are clamped. -/
def clipSingleAux : GradClip → List (LayerObj × List ℚ) →
    Except PyErr (List (List ℚ))
  | _, [] => Except.ok []
  | GradClip.scalar q, layer :: rest =>
      match clipSingleAux (GradClip.scalar q) rest with
      | Except.error e => Except.error e
      | Except.ok rs =>
          Except.ok
            ((if isConv2dOrLinear layer.1 then clampList q layer.2
              else layer.2) :: rs)
  | GradClip.list qs, layer :: rest =>
      match qs.get? 0 with
      | none => Except.error PyErr.runtimeError
      | some q =>
          match clipSingleAux (GradClip.scalar q) rest with
          | Except.error e => Except.error e
          | Except.ok rs =>
              Except.ok
                ((if isConv2dOrLinear layer.1 then clampList q layer.2
                  else layer.2) :: rs)

/-- Entry point for the single-model clipping phase: `self.layers`
holds the torch modules themselves. -/
def clipBackwardSingle (gc : GradClip) (layers : List (ModuleKind × List ℚ)) :
    Except PyErr (List (List ℚ)) :=
  clipSingleAux gc (layers.map fun lay => (LayerObj.module lay.1, lay.2))

/-! ### Network construction (lines 170-342) -/

/-- A parsed layer specification.  The tag grammar of
`_init_single_layer` (lines 188-281) recognizes the five kinds below;
anything else is `unknown`. -/
inductive LayerSpec where
  | conv (outChannels kernelSize : ℕ)
  | fc (outFeatures : ℕ)
  | apool (poolSize : ℕ)
  | mpool (poolSize : ℕ)
  | flatten
  | unknown (tag : String)
  deriving DecidableEq

/-- Reading a Python local variable: `UnboundLocalError` when it has not
been assigned yet in the current function. -/
def readLocal {α : Type} : Option α → Except PyErr α
  | none => Except.error PyErr.unboundLocal
  | some v => Except.ok v

/-- The shape/type bookkeeping produced for one layer. -/
structure LayerResult where
  fmapShape : List ℕ
  fmapType : String
  deriving DecidableEq

/-- Embedding of the nested function `_init_single_layer`
(lines 188-281).  Because the nested function ASSIGNS `in_channels`
(lines 208, 223, 241, 260, 267), `height` and `width` (lines 239-240,
258-259, 269-270) without a `nonlocal` declaration, Python makes them
locals of the nested function, unbound at their first read; the
enclosing `_init_layers` bindings (lines 179-186) are invisible.  So
every recognized tag raises `UnboundLocalError` (for `apool`/`mpool`,
`out_channels` on line 241 is likewise never assigned in that branch),
while an unrecognized tag raises the intended `ValueError`
(lines 274-279) and a conv/apool/mpool tag under multi-model mode
raises `NotImplementedError` first (lines 76-85). -/
def initSingleLayer (multiModel : Bool) (spec : LayerSpec) :
    Except PyErr LayerResult :=
  let inChannels : Option ℕ := none
  let height : Option ℕ := none
  let width : Option ℕ := none
  let outChannelsLocal : Option ℕ := none
  match spec with
  | LayerSpec.conv oc _k =>
      if multiModel then Except.error PyErr.notImplemented
      else do
        let _ic ← readLocal inChannels  -- line 201: Conv2d(in_channels, ...)
        let h ← readLocal height
        let w ← readLocal width
        Except.ok ⟨[oc, h, w], "conv"⟩
  | LayerSpec.fc oc => do
      let _ic ← readLocal inChannels    -- line 217: Linear(in_channels, ...)
      Except.ok ⟨[oc], "fc"⟩
  | LayerSpec.apool p =>
      if multiModel then Except.error PyErr.notImplemented
      else do
        let h ← readLocal height        -- line 239: height = floor(height / p)
        let w ← readLocal width
        let oc ← readLocal outChannelsLocal  -- line 241: out_channels unassigned
        Except.ok ⟨[oc, h / p, w / p], "apool"⟩
  | LayerSpec.mpool p =>
      if multiModel then Except.error PyErr.notImplemented
      else do
        let h ← readLocal height        -- line 258: height = floor(height / p)
        let w ← readLocal width
        let oc ← readLocal outChannelsLocal  -- line 260: out_channels unassigned
        Except.ok ⟨[oc, h / p, w / p], "mpool"⟩
  | LayerSpec.flatten => do
      let ic ← readLocal inChannels     -- line 267: in_channels * height * width
      let h ← readLocal height
      let w ← readLocal width
      Except.ok ⟨[ic * h * w], "flatten"⟩
  | LayerSpec.unknown _tag => Except.error PyErr.valueError

/-- The construction walk over `network_size[1:]` (lines 312-321 for the
single-model case): initialize each layer in order, collecting the
feature-map shapes. -/
def initLayersWalk (multiModel : Bool) :
    List LayerSpec → Except PyErr (List LayerResult)
  | [] => Except.ok []
  | spec :: rest => do
      let r ← initSingleLayer multiModel spec
      let rs ← initLayersWalk multiModel rest
      Except.ok (r :: rs)

/-- The construction-time model-count guard (lines 337-340):
`if not self.multi_model and self.num_models != 1: raise ValueError`. -/
def initModelCountGuard (multiModel : Bool) (numModels : ℕ) :
    Except PyErr Unit :=
  if multiModel = false ∧ numModels ≠ 1 then Except.error PyErr.valueError
  else Except.ok ()

/-! ### NaN guard in the weight-gradient accumulation (lines 1626-1628
and 1662-1665) -/

/-- A floating-point gradient entry: NaN or a finite value. -/
inductive RVal where
  | nan
  | num (q : ℚ)
  deriving DecidableEq

/-- `torch.isnan` on one entry. -/
def isNanR : RVal → Bool
  | RVal.nan => true
  | RVal.num _ => false

/-- Replace every NaN entry with zero. -/
def nanToZero (g : List RVal) : List RVal :=
  g.map fun v => if isNanR v then RVal.num 0 else v

/-- The fc-layer NaN guard (lines 1626-1628): when any entry of the
accumulated weight gradient is NaN, zero those entries and emit a
warning (the boolean); no exception is raised. -/
def fcNanGuard (g : List RVal) : List RVal × Bool :=
  if g.any isNanR then (nanToZero g, true) else (g, false)

/-- A debugger event raised by the embedded code. -/
inductive DebugEvent where
  | pdbBreak
  deriving DecidableEq

/-- The conv-layer NaN guard (lines 1662-1665): when any entry is NaN
the code first executes `pdb.set_trace()` — dropping into the
interactive debugger (fatal `BdbQuit` in a non-interactive run) —
before the zeroing and the warning.  The emitted debug events are
returned alongside the (eventual) zeroed gradient. -/
def convNanGuard (g : List RVal) : List DebugEvent × List RVal × Bool :=
  if g.any isNanR then ([DebugEvent.pdbBreak], nanToZero g, true)
  else ([], g, false)

/-! ## Theorems -/

/-! ### C6 — epsilon kernel and auto-scaled betas -/

/-- C6: the kernel initializer computes
`epsilon[t] = sum_{k=0}^{t} alpha_i^k * alpha_v^(t-k)`; in particular
`epsilon[0] = 1` before normalization, every `epsilon[t]` is
non-negative for decay constants in `(0,1)`, and auto-scaling sets
`beta_i = 1`, `beta_v = 1/max(epsilon)`, `beta_bias = 1/max(epsilon)`. -/
theorem C6_epsilon_kernel (alphaI alphaV : ℚ) (timeLength : ℕ)
    (h1 : 0 < alphaI) (_h2 : alphaI < 1) (h3 : 0 < alphaV) (_h4 : alphaV < 1) :
    epsilonAt alphaI alphaV 0 = 1 ∧
    (∀ t, 0 ≤ epsilonAt alphaI alphaV t) ∧
    betasAuto alphaI alphaV timeLength =
      ⟨1, 1 / tensorMax (epsilonList alphaI alphaV timeLength),
        1 / tensorMax (epsilonList alphaI alphaV timeLength)⟩ := by
  refine ⟨?_, ?_, rfl⟩
  · simp [epsilonAt]
  · intro t
    exact Finset.sum_nonneg fun k _ =>
      mul_nonneg (pow_nonneg h1.le k) (pow_nonneg h3.le (t - k))

/-- Witness for C6 at `alpha_i = 1/2`, `alpha_v = 1/3`, `T = 3`. -/
theorem C6_epsilon_kernel_witness :
    (0 : ℚ) < 1 / 2 ∧ (1 / 2 : ℚ) < 1 ∧ (0 : ℚ) < 1 / 3 ∧ (1 / 3 : ℚ) < 1 ∧
    (epsilonAt (1 / 2) (1 / 3) 0 = 1 ∧
      (∀ t, 0 ≤ epsilonAt (1 / 2) (1 / 3) t) ∧
      betasAuto (1 / 2) (1 / 3) 3 =
        ⟨1, 1 / tensorMax (epsilonList (1 / 2) (1 / 3) 3),
          1 / tensorMax (epsilonList (1 / 2) (1 / 3) 3)⟩) :=
  ⟨by norm_num, by norm_num, by norm_num, by norm_num,
    C6_epsilon_kernel (1 / 2) (1 / 3) 3 (by norm_num) (by norm_num)
      (by norm_num) (by norm_num)⟩

/-! ### C9 — construction model-count guard -/

/-- C9 counterexample: the claim lists "multi-model flag set with an
explicit model count of 1" as a failing configuration, but the guard on
lines 337-340 only fires when the flag is NOT set and the count differs
from 1; `multi_model = True` with `num_models = 1` is accepted. -/
theorem C9_counterexample : initModelCountGuard true 1 = Except.ok () := rfl

/-- C9 as amended: the guard raises a configuration error exactly when
the model count differs from 1 while the multi-model flag is not set
(a set flag with count 1 passes), and any construction that passes the
guard has count 1 unless multi-model was requested. -/
theorem C9_amended (multiModel : Bool) (numModels : ℕ) :
    (initModelCountGuard multiModel numModels =
        Except.error PyErr.valueError ↔
      (multiModel = false ∧ numModels ≠ 1)) ∧
    (initModelCountGuard multiModel numModels = Except.ok () →
      multiModel = true ∨ numModels = 1) := by
  unfold initModelCountGuard
  constructor
  · constructor
    · intro herr
      by_contra hcon
      rw [if_neg hcon] at herr
      exact Except.noConfusion herr
    · intro hcond
      rw [if_pos hcond]
  · intro hok
    by_cases hcond : multiModel = false ∧ numModels ≠ 1
    · rw [if_pos hcond] at hok
      exact Except.noConfusion hok
    · push_neg at hcond
      cases multiModel with
      | true => exact Or.inl rfl
      | false => exact Or.inr (hcond rfl)

/-- Witness for C9's amended statement at `(false, 2)` and `(true, 1)`. -/
theorem C9_amended_witness :
    initModelCountGuard false 2 = Except.error PyErr.valueError ∧
    (true = true ∨ (1 : ℕ) = 1) :=
  ⟨(C9_amended false 2).1.mpr ⟨rfl, by norm_num⟩,
    (C9_amended true 1).2 rfl⟩

/-! ### C8 — NaN guard in the weight-gradient accumulation -/

/-- C8: the fc branch (lines 1626-1628) replaces NaN entries with zero
and warns, as claimed; but the conv branch (lines 1662-1665) first
executes `pdb.set_trace()`, dropping into the interactive debugger
(fatal in a non-interactive run) instead of silently continuing — the
emitted debug-event list is nonempty. -/
theorem C8_conv_nan_guard_breaks :
    fcNanGuard [RVal.nan, RVal.num 2] = ([RVal.num 0, RVal.num 2], true) ∧
    convNanGuard [RVal.nan, RVal.num 2] =
      ([DebugEvent.pdbBreak], [RVal.num 0, RVal.num 2], true) ∧
    (convNanGuard [RVal.nan, RVal.num 2]).1 ≠ [] := by
  refine ⟨rfl, rfl, by decide⟩

/-! ### C5 — construction walk over the layer specification -/

/-- C5: construction does not thread the feature-map shape at all —
every recognized layer tag raises `UnboundLocalError` at its first read
of `in_channels`/`height`/`width` (locals of the nested
`_init_single_layer`, never assigned before use because the `nonlocal`
declaration is missing), so construction fails on valid specifications
too; only the unrecognized-tag case raises the claimed configuration
error. -/
theorem C5_construction_raises :
    initLayersWalk false [LayerSpec.fc 2] =
      Except.error PyErr.unboundLocal ∧
    initLayersWalk false
        [LayerSpec.conv 32 3, LayerSpec.apool 2, LayerSpec.flatten,
          LayerSpec.fc 10] =
      Except.error PyErr.unboundLocal ∧
    initLayersWalk false [LayerSpec.unknown "bogus"] =
      Except.error PyErr.valueError :=
  ⟨rfl, rfl, rfl⟩

/-! ### C2 — loss computation -/

/-- C2: `calc_loss` never returns the claimed MSE value for either
rule: the guard on line 832 of `apply_alpha_kernel` evaluates
`len(input.shape != 3)` — the length of a boolean — so every call
raises `TypeError` before any convolution (and the count branch's
`torch.pow(self.diff[:, -1, :])` on line 643 would raise a second
`TypeError`). -/
theorem C2_loss_raises (alphaExp : ℚ) (timeLength alphaExtend : ℕ)
    (output target : Tensor3) :
    calcLossTrain alphaExp timeLength alphaExtend output target =
      Except.error PyErr.typeError ∧
    calcLossCount timeLength output target =
      Except.error PyErr.typeError :=
  ⟨rfl, rfl⟩

/-! ### C1 and C10 — the single-model voltage update -/

/-- Broadcasting a reversed singleton shape against a reversed pair
shape yields a rank-2 result or fails; it can never stay rank 1. -/
theorem broadcastDimsRev_one_two (n bdim fdim : ℕ) :
    broadcastDimsRev [n] [fdim, bdim] = some [n, bdim] ∨
    broadcastDimsRev [n] [fdim, bdim] = some [fdim, bdim] ∨
    broadcastDimsRev [n] [fdim, bdim] = none := by
  have h0 : broadcastDimsRev ([] : List ℕ) [bdim] = some [bdim] := rfl
  simp only [broadcastDimsRev, h0]
  split_ifs <;> simp

/-- An in-place add of a `[batch, features]` tensor into a rank-1
tensor is always rejected by torch. -/
theorem inplaceAddOk_vec_into_mat (n bdim fdim : ℕ) :
    inplaceAddOk [n] [bdim, fdim] = false := by
  have hrev : ([bdim, fdim] : List ℕ).reverse = [fdim, bdim] := rfl
  rcases broadcastDimsRev_one_two n bdim fdim with h | h | h <;>
    simp [inplaceAddOk, broadcastShape, hrev, h, beq_eq_false_iff_ne]

/-- C1: in single-model mode, the voltage update (lines 541-555) never
computes `V[l,t] = beta_v * I[l,t] + beta_bias * bias_l`: the in-place
`state_v += state_i * beta_v` adds a `[batch, features]` tensor into
the `[features]`-shaped bias alias and raises a `RuntimeError` for
every input (the multi-model branch, lines 525-539, is the one that
matches the claimed recurrence). -/
theorem C1_voltage_update_raises (betaBias betaV : ℚ) (bias : List ℚ)
    (stateIcur : Mat2) :
    (singleModelVUpdate betaBias betaV bias stateIcur).2 =
      Except.error PyErr.runtimeError := by
  simp [singleModelVUpdate, inplaceAddOk_vec_into_mat]

/-- Concrete rank-2 synaptic current used in the C10 evaluation. -/
def mat2Ex : Mat2 := ⟨1, 1, fun _ _ => 0⟩

/-- C10: `forward` does NOT leave the bias tensor unchanged — before
the voltage update fails, `state_v *= self.beta_bias` (line 553) has
already scaled the stored bias parameter in place: with stored bias
`[2]` and `beta_bias = 3`, the parameter afterwards holds `[6]`. -/
theorem C10_forward_mutates_bias :
    (singleModelVUpdate 3 1 [2] mat2Ex).1 = [6] ∧
    ([2] : List ℚ) ≠ [6] := by
  constructor
  · norm_num [singleModelVUpdate, mat2Ex, inplaceAddOk_vec_into_mat]
  · norm_num

/-! ### C3 — the finite-difference helper -/

/-- Evaluation of the example neuron at `t = 0`: drive `1/2`, below
threshold, so no spike. -/
theorem snnStepEx0 : snnStep exP exX 0 = (1 / 2, 1 / 2, 0) := by
  norm_num [snnStep, exP, exX]

/-- Evaluation of the example neuron at `t = 1`: drive `2`, above
threshold, so it spikes. -/
theorem snnStepEx1 : snnStep exP exX 1 = (2, 2, 1) := by
  have h : snnStep exP exX 1 = snnStep exP exX (0 + 1) := rfl
  rw [h, snnStep, snnStepEx0]
  norm_num [exP, exX]

/-- C3 counterexample: with no decay, unit scaling, zero bias and drive
`1/2` then `2`, the code stores `V'[1] = V[1] - V[0]*(1 - S[0]) = 3/2`
(lines 564-566 use the spike of timestep 0, the last element of
`state_s` at that point), while the claimed formula
`V[1] - V[0]*(1 - S[1])` gives `2`. -/
theorem C3_counterexample :
    statevPrime exP exX 1 = 3 / 2 ∧ statevPrimeClaim exP exX 1 = 2 ∧
    (3 / 2 : ℚ) ≠ 2 := by
  have h1 : statevPrime exP exX 1 = statevPrime exP exX (0 + 1) := rfl
  have h2 : statevPrimeClaim exP exX 1 = statevPrimeClaim exP exX (0 + 1) := rfl
  refine ⟨?_, ?_, by norm_num⟩
  · rw [h1, statevPrime]
    norm_num [vPrimeStepRaw, stateV, stateS, snnStepEx0, snnStepEx1, max_def]
  · rw [h2, statevPrimeClaim]
    norm_num [stateV, stateS, snnStepEx0, snnStepEx1, max_def]

/-- C3 as amended: for `t > 0` the stored helper is
`V'[l,t] = clamp(V[l,t] - V[l,t-1] * (1 - S[l,t-1]), min = 0.01)` —
the spike factor uses the PREVIOUS timestep's spike, not the current
one. -/
theorem C3_amended (p : NeuronCfg) (x : ℕ → ℚ) (t : ℕ) (ht : 1 ≤ t) :
    statevPrime p x t =
      max (stateV p x t - stateV p x (t - 1) * (1 - stateS p x (t - 1)))
        (1 / 100) := by
  cases t with
  | zero => omega
  | succ k =>
      simp only [statevPrime, Nat.add_sub_cancel]
      congr 1
      unfold vPrimeStepRaw
      ring

/-- Witness for C3's amended statement at the concrete run, `t = 1`. -/
theorem C3_amended_witness :
    1 ≤ 1 ∧
    statevPrime exP exX 1 =
      max (stateV exP exX 1 - stateV exP exX 0 * (1 - stateS exP exX 0))
        (1 / 100) :=
  ⟨le_refl 1, C3_amended exP exX 1 (le_refl 1)⟩

/-! ### C7 — latency-mode early exit -/

/-- Characterization of the early-exit condition: all cumulative spike
counts are positive iff every (batch element, output neuron) pair has
spiked at some timestep `u ≤ t`. -/
theorem allSpikedBy_eq_true (nb nn t : ℕ) (s : ℕ → ℕ → ℕ → Bool) :
    allSpikedBy nb nn s t = true ↔
      ∀ b, b < nb → ∀ n, n < nn → ∃ u, u ≤ t ∧ s u b n = true := by
  simp [allSpikedBy, spikedByT, List.all_eq_true, List.any_eq_true,
    List.mem_range, Nat.lt_succ_iff]

/-- Soundness of `firstHit` when it finds an index: the index is in
range, satisfies the predicate, and is the first to do so. -/
theorem firstHit_some_spec (p : ℕ → Bool) :
    ∀ (n t u : ℕ), firstHit p t n = some u →
      t ≤ u ∧ u < t + n ∧ p u = true ∧
        ∀ v, t ≤ v → v < u → p v = false := by
  intro n
  induction n with
  | zero =>
      intro t u h
      exact absurd h (by simp [firstHit])
  | succ n ih =>
      intro t u h
      cases hpt : p t with
      | true =>
          simp [firstHit, hpt] at h
          subst h
          exact ⟨le_rfl, by omega, hpt, fun v hv1 hv2 => by omega⟩
      | false =>
          simp [firstHit, hpt] at h
          obtain ⟨h1, h2, h3, h4⟩ := ih (t + 1) u h
          refine ⟨by omega, by omega, h3, ?_⟩
          intro v hv1 hv2
          rcases Nat.eq_or_lt_of_le hv1 with rfl | hlt
          · exact hpt
          · exact h4 v (by omega) hv2

/-- Soundness of `firstHit` when it finds nothing: the predicate fails
on the whole scanned range, and conversely. -/
theorem firstHit_none_spec (p : ℕ → Bool) :
    ∀ (n t : ℕ), firstHit p t n = none ↔
      ∀ v, t ≤ v → v < t + n → p v = false := by
  intro n
  induction n with
  | zero =>
      intro t
      constructor
      · intro _ v h1 h2
        omega
      · intro _
        rfl
  | succ n ih =>
      intro t
      constructor
      · intro h v hv1 hv2
        cases hpt : p t with
        | true => simp [firstHit, hpt] at h
        | false =>
            simp [firstHit, hpt] at h
            rcases Nat.eq_or_lt_of_le hv1 with rfl | hlt
            · exact hpt
            · exact (ih (t + 1)).mp h v (by omega) (by omega)
      · intro hall
        have hpt : p t = false := hall t le_rfl (by omega)
        simp [firstHit, hpt]
        exact (ih (t + 1)).mpr fun v h1 h2 => hall v (by omega) (by omega)

/-- C7: in latency mode the simulation stops at the first timestep
after which every output neuron of every batch element has cumulatively
spiked, so `term_length <= time_horizon`; no earlier timestep satisfies
the exit condition, the exit condition holds at the last executed
timestep whenever the exit was early, and `term_length = time_horizon`
whenever some output neuron never spikes for any batch element. -/
theorem C7_latency_early_exit (nb nn timeLen : ℕ) (s : ℕ → ℕ → ℕ → Bool)
    (hb : 1 ≤ nb) (_hT : 1 ≤ timeLen) :
    termLength nb nn timeLen s ≤ timeLen ∧
    (∀ t, t + 1 < termLength nb nn timeLen s →
      allSpikedBy nb nn s t = false) ∧
    (termLength nb nn timeLen s < timeLen →
      allSpikedBy nb nn s (termLength nb nn timeLen s - 1) = true) ∧
    ((∃ n, n < nn ∧ ∀ b, b < nb → ∀ u, u < timeLen → s u b n = false) →
      termLength nb nn timeLen s = timeLen) := by
  cases hfh : firstHit (allSpikedBy nb nn s) 0 timeLen with
  | none =>
      have hnone := (firstHit_none_spec (allSpikedBy nb nn s) timeLen 0).mp hfh
      refine ⟨?_, ?_, ?_, ?_⟩
      · simp [termLength, hfh]
      · intro t ht
        simp only [termLength, hfh] at ht
        exact hnone t (by omega) (by omega)
      · intro hlt
        simp [termLength, hfh] at hlt
      · intro _
        simp [termLength, hfh]
  | some t0 =>
      obtain ⟨_, h2, h3, h4⟩ :=
        firstHit_some_spec (allSpikedBy nb nn s) timeLen 0 t0 hfh
      have hterm : termLength nb nn timeLen s = t0 + 1 := by
        simp [termLength, hfh]
      refine ⟨?_, ?_, ?_, ?_⟩
      · omega
      · intro t ht
        rw [hterm] at ht
        exact h4 t (by omega) (by omega)
      · intro _
        rw [hterm]
        simpa using h3
      · rintro ⟨n, hn, hsil⟩
        have hcontra := (allSpikedBy_eq_true nb nn t0 s).mp h3
        obtain ⟨u, hu, hspike⟩ := hcontra 0 (by omega) n hn
        have := hsil 0 (by omega) u (by omega)
        rw [this] at hspike
        exact Bool.noConfusion hspike

/-- Witness for C7: one batch element, one output neuron that never
spikes, horizon 2 — the simulation runs the full horizon. -/
theorem C7_latency_early_exit_witness :
    termLength 1 1 2 (fun _ _ _ => false) ≤ 2 ∧
    (∀ t, t + 1 < termLength 1 1 2 (fun _ _ _ => false) →
      allSpikedBy 1 1 (fun _ _ _ => false) t = false) ∧
    (termLength 1 1 2 (fun _ _ _ => false) < 2 →
      allSpikedBy 1 1 (fun _ _ _ => false)
        (termLength 1 1 2 (fun _ _ _ => false) - 1) = true) ∧
    ((∃ n, n < 1 ∧ ∀ b, b < 1 → ∀ u, u < 2 →
        (fun _ _ _ => false : ℕ → ℕ → ℕ → Bool) u b n = false) →
      termLength 1 1 2 (fun _ _ _ => false) = 2) :=
  C7_latency_early_exit 1 1 2 (fun _ _ _ => false) (by omega) (by omega)

/-! ### C4 — gradient clipping -/

/-- In multi-model mode the conv/fc guard of line 1123 receives the
per-model list, so it is false for every layer: whenever the model
loop succeeds, it returns the gradients unchanged (it can still select
and rebind `grad_clip` on the way). -/
theorem clipModelsAux_moduleList (numModels : ℕ) (ks : List ModuleKind) :
    ∀ (gs : List (List ℚ)) (m : ℕ) (gc : GradClip),
      (∃ e, clipModelsAux numModels (LayerObj.moduleList ks) m gc gs =
          Except.error e) ∨
      ∃ gcFin, clipModelsAux numModels (LayerObj.moduleList ks) m gc gs =
          Except.ok (gcFin, gs) := by
  intro gs
  induction gs with
  | nil => exact fun m gc => Or.inr ⟨gc, by simp [clipModelsAux]⟩
  | cons g rest ih =>
      intro m gc
      cases gc with
      | scalar q =>
          rcases ih (m + 1) (GradClip.scalar q) with ⟨e, he⟩ | ⟨gcFin, hok⟩
          · exact Or.inl ⟨e, by simp [clipModelsAux, he]⟩
          · exact Or.inr ⟨gcFin,
              by simp [clipModelsAux, hok, isConv2dOrLinear]⟩
      | list qs =>
          cases hsel : gcSelect numModels m (GradClip.list qs) with
          | error e => exact Or.inl ⟨e, by simp [clipModelsAux, hsel]⟩
          | ok q =>
              rcases ih (m + 1) (GradClip.scalar q) with ⟨e, he⟩ | ⟨gcFin, hok⟩
              · exact Or.inl ⟨e, by simp [clipModelsAux, hsel, he]⟩
              · exact Or.inr ⟨gcFin,
                  by simp [clipModelsAux, hsel, hok, isConv2dOrLinear]⟩

/-- C4: in multi-model mode the clipping loop clamps nothing — the
loop variable `layer` (line 1103) is the per-model Python list, so
`is_conv2d_or_linear(layer)` at line 1123 is always false and the
gradients come back unchanged: the entry `5` stays `5` (first
conjunct), outside the claimed interval even for the larger list entry
`3` (second conjunct).  Only the divisibility check behaves as claimed
(third conjunct), and the single-model branch (lines 1126-1135), where
the guard receives the module itself, does clamp — with the first list
entry — showing the clamp invariant is the code's intent (last
conjunct). -/
theorem C4_multi_model_clip_dead :
    clipBackwardMulti 2 (GradClip.list [1, 3])
        [([ModuleKind.linear, ModuleKind.linear], [[5], [5]])] =
      Except.ok [[[5], [5]]] ∧
    ¬ ((5 : ℚ) ≤ |(3 : ℚ)|) ∧
    clipBackwardMulti 2 (GradClip.list [1, 3, 5])
        [([ModuleKind.linear, ModuleKind.linear], [[5], [5]])] =
      Except.error PyErr.valueError ∧
    clipBackwardSingle (GradClip.list [1, 3]) [(ModuleKind.linear, [5])] =
      Except.ok [[1]] := by
  refine ⟨?_, ?_, ?_, ?_⟩
  · norm_num [clipBackwardMulti, clipLayersAux, gcCheck, clipModelsAux,
      gcSelect, isConv2dOrLinear, List.get?]
  · rw [abs_of_nonneg (by norm_num : (0 : ℚ) ≤ 3)]
    norm_num
  · norm_num [clipBackwardMulti, clipLayersAux, gcCheck]
  · norm_num [clipBackwardSingle, clipSingleAux, isConv2dOrLinear,
      clampList, clampVal, List.get?, max_def, min_def]
